import Mathlib

/-!
Verification development for the AI incident-management agent.

The definitions below are a shallow embedding of the Python sources:
`models.py` (the `Incident` record), `config_manager.py` (the rule table),
`incident_classifier.py` (priority and team classification),
`incident_parser.py` (email-to-incident normalization and rejection filters),
`email_handler.py` (acknowledgement sending and the fetch/dedup loop),
`jira_handler.py` (ticket creation) and `agent.py` (the per-incident
lifecycle `_process_single_incident`).

Python strings are modelled as Lean `String`, Python `None`/`str` optionals
as `Option String` (with Python truthiness: `None` and `""` are falsy),
Python dicts (insertion-ordered) as association lists, and the external
SMTP/Jira collaborators as an explicit environment record.
-/

/-- Python's `needle in haystack` substring test, on character lists:
`true` iff `needle` occurs contiguously inside `haystack`. -/
def listInfixOf (needle : List Char) : List Char → Bool
  | [] => needle.isEmpty
  | c :: rest => needle.isPrefixOf (c :: rest) || listInfixOf needle rest

/-- Python's `needle in haystack` for strings (substring containment). -/
def pyIn (needle haystack : String) : Bool :=
  listInfixOf needle.data haystack.data

/-- Python's `str.lower()` (ASCII case folding, which covers every string
the configuration loader and classifier produce). -/
def pyLower (s : String) : String :=
  String.mk (s.data.map Char.toLower)

/-- Python truthiness of an `Optional[str]`: `None` and `""` are falsy. -/
def pyTruthy (o : Option String) : Bool :=
  match o with
  | none => false
  | some s => s != ""

/-- Python's `str.strip("<>")`: remove leading and trailing `<` / `>`. -/
def pyStripAngles (s : String) : String :=
  let isAngle : Char → Bool := fun c => c == '<' || c == '>'
  String.mk (((s.data.dropWhile isAngle).reverse.dropWhile isAngle).reverse)

/-- Python's `str.strip()`: remove leading and trailing whitespace. -/
def pyStrip (s : String) : String :=
  String.mk (((s.data.dropWhile Char.isWhitespace).reverse.dropWhile
    Char.isWhitespace).reverse)

/-- The `Incident` pydantic model of `models.py`, with its defaulted
processing fields. -/
structure Incident where
  id : String
  source : String
  subject : String
  body : String
  raw_content : String
  priority : Option String := none
  assigned_team : Option String := none
  assigned_team_email : Option String := none
  is_acknowledged : Bool := false
  jira_ticket_key : Option String := none
  processing_notes : List String := []
deriving DecidableEq

/-- `Incident.add_note` from `models.py`: append one processing note. -/
def Incident.add_note (incident : Incident) (note : String) : Incident :=
  { incident with processing_notes := incident.processing_notes ++ [note] }

/-- The classification-relevant fields of `ConfigManager`
(`config_manager.py`): keyword tables are insertion-ordered dicts of
already-lowercased keywords; `team_emails` keys are already lowercased. -/
structure ConfigManager where
  agent_name : String
  team_keywords : List (String × List String)
  team_emails : List (String × String)
  default_team_name : String
  priority_keywords : List (String × List String)
deriving DecidableEq

/-- `config_manager.py` lines 67-70: the default team email is the
`[TeamEmails]` entry under the lowercased default team name; Python's
`dict.get` returns the stored value even when it is the empty string, and
falls back to `support@example.com` only when the key is absent. -/
def ConfigManager.default_team_email (cfg : ConfigManager) : String :=
  match cfg.team_emails.lookup (pyLower cfg.default_team_name) with
  | some v => v
  | none => "support@example.com"

/-- The lowercased subject-plus-body text both classifier methods scan
(`incident_classifier.py` lines 38 and 71). -/
def scanText (incident : Incident) : String :=
  pyLower (incident.subject ++ " " ++ incident.body)

/-- The note appended when a priority keyword matches
(`incident_classifier.py` line 45). -/
def priorityNote (p_level keyword : String) : String :=
  "Priority classified as " ++ p_level ++ " due to keyword: \x27" ++
    keyword ++ "\x27."

/-- The note appended when no priority keyword matches
(`incident_classifier.py` line 52). -/
def defaultPriorityNote : String :=
  "No specific priority keywords found. Defaulting priority to P3."

/-- The warning note appended when a team keyword matches but the team has
no email (`incident_classifier.py` lines 84-86). -/
def noEmailNote (keyword team_name_key : String) : String :=
  "Keyword \x27" ++ keyword ++ "\x27 matched team \x27" ++ team_name_key ++
    "\x27, but no email found for \x27" ++ pyLower team_name_key ++
    "\x27 in [TeamEmails] section. Assigning to default team instead."

/-- The note appended when a team is assigned by keyword
(`incident_classifier.py` line 92). -/
def assignedTeamNote (team_name_key keyword team_email : String) : String :=
  "Assigned to team \x27" ++ team_name_key ++ "\x27 based on keyword: \x27"
    ++ keyword ++ "\x27. Email: " ++ team_email

/-- The note appended when the default team is assigned
(`incident_classifier.py` lines 102-103). -/
def defaultTeamNote (cfg : ConfigManager) : String :=
  "No specific team keywords matched or issue with matched team\x27s email. Assigning to default team: Name=\x27"
    ++ cfg.default_team_name ++ "\x27, Email=\x27" ++
    cfg.default_team_email ++ "\x27."

/-- The inner double loop of `classify_incident_priority`
(`incident_classifier.py` lines 41-48): walk the given priority levels in
order; for the first level one of whose keywords is a substring of `text`,
return that level together with the first matching keyword. -/
def scanLevels (cfg : ConfigManager) (text : String) :
    List String → Option (String × String)
  | [] => none
  | p_level :: rest =>
    match ((cfg.priority_keywords.lookup p_level).getD []).find?
        (fun keyword => pyIn keyword text) with
    | some keyword => some (p_level, keyword)
    | none => scanLevels cfg text rest

/-- `IncidentClassifier.classify_incident_priority`
(`incident_classifier.py` lines 24-55): scan `P1, P2, P3, P4` in order over
the lowercased `subject + " " + body`; first keyword match wins; default to
`P3` with a note when nothing matches. Returns the priority together with
the incident carrying the appended note. -/
def classify_incident_priority (cfg : ConfigManager) (incident : Incident) :
    String × Incident :=
  let text_to_scan := scanText incident
  match scanLevels cfg text_to_scan ["P1", "P2", "P3", "P4"] with
  | some (p_level, keyword) =>
      (p_level, incident.add_note (priorityNote p_level keyword))
  | none =>
      ("P3", incident.add_note defaultPriorityNote)

/-- The team-scanning loop of `assign_incident_to_team`
(`incident_classifier.py` lines 76-98), faithfully including its control
flow: on a keyword match whose team has no (or an empty) email entry a
warning note is appended and the inner loop breaks; the outer loop then
checks `if incident.assigned_team:` - which only stops the scan when the
incident already carried a truthy `assigned_team` - and otherwise proceeds
to the next team. Returns `some (team, email)` for an in-loop return, or
`none` when control falls through to the default-team code. -/
def assignTeamsLoop (cfg : ConfigManager) (incident : Incident)
    (text_to_scan : String) :
    List (String × List String) → Option (String × String) × Incident
  | [] => (none, incident)
  | (team_name_key, keywords_for_team) :: rest =>
    match keywords_for_team.find? (fun keyword => pyIn keyword text_to_scan) with
    | some keyword =>
      let team_email := (cfg.team_emails.lookup (pyLower team_name_key)).getD ""
      if team_email == "" then
        let incident := incident.add_note (noEmailNote keyword team_name_key)
        if pyTruthy incident.assigned_team then (none, incident)
        else assignTeamsLoop cfg incident text_to_scan rest
      else
        (some (team_name_key, team_email),
         incident.add_note (assignedTeamNote team_name_key keyword team_email))
    | none =>
      if pyTruthy incident.assigned_team then (none, incident)
      else assignTeamsLoop cfg incident text_to_scan rest

/-- `IncidentClassifier.assign_incident_to_team`
(`incident_classifier.py` lines 57-106): run the team-scanning loop on the
lowercased `subject + " " + body`; when it does not return a team, fall
through to the configured default team with a note. -/
def assign_incident_to_team (cfg : ConfigManager) (incident : Incident) :
    (String × String) × Incident :=
  let text_to_scan := scanText incident
  match assignTeamsLoop cfg incident text_to_scan cfg.team_keywords with
  | (some result, incident) => (result, incident)
  | (none, incident) =>
      ((cfg.default_team_name, cfg.default_team_email),
       incident.add_note (defaultTeamNote cfg))

/-- A raw email message after header/body decoding, as consumed by
`IncidentParser.parse_email_to_incident` (`incident_parser.py`): the
decoded `Subject`, the address part extracted from `From`, the
`X-Auto-Response-Suppress`, `Auto-Submitted` and `Message-ID` headers
(absent headers are `none`), the extracted plain-text body (already
HTML-stripped and stripped of surrounding whitespace by
`_get_email_body`), and the raw payload kept for `raw_content`. -/
structure EmailMessage where
  subject : Option String
  from_address : String
  x_auto_response_suppress : Option String
  auto_submitted : Option String
  message_id : Option String
  body : String
  raw : String
deriving DecidableEq

/-- The fixed auto-reply / out-of-office / non-delivery phrases of
`incident_parser.py` lines 116-119. -/
def common_auto_reply_phrases : List String :=
  ["auto-reply", "out of office", "automatic reply",
   "undeliverable", "delivery status notification", "non-remise"]

/-- Rejection filter 1 (`incident_parser.py` line 120): some auto-reply
phrase is a substring of the lowercased subject (missing subject header
decodes to `"(No Subject)"`). -/
def subjectPhraseFilter (msg : EmailMessage) : Bool :=
  common_auto_reply_phrases.any
    (fun phrase => pyIn phrase (pyLower (msg.subject.getD "(No Subject)")))

/-- Rejection filter 2 (`incident_parser.py` line 125): an
`X-Auto-Response-Suppress` header is present and contains `"All"`. -/
def suppressHeaderFilter (msg : EmailMessage) : Bool :=
  match msg.x_auto_response_suppress with
  | some v => pyIn "All" v
  | none => false

/-- Rejection filter 3 (`incident_parser.py` lines 130-133): an
`Auto-Submitted` header whose lowercased value is neither empty nor
`"no"`. -/
def autoSubmittedFilter (msg : EmailMessage) : Bool :=
  let auto_submitted_header := pyLower (msg.auto_submitted.getD "")
  auto_submitted_header != "" && auto_submitted_header != "no"

/-- Rejection filter 4 (`incident_parser.py` line 135): the agent's own
outbound address is configured (truthy) and equals, case-insensitively,
the sender address. -/
def selfSenderFilter (msg : EmailMessage) (agent_sender_email : Option String) :
    Bool :=
  pyTruthy agent_sender_email &&
    pyLower msg.from_address == pyLower (agent_sender_email.getD "")

/-- Any of the four rejection filters fires. -/
def rejectionFilterFires (msg : EmailMessage)
    (agent_sender_email : Option String) : Bool :=
  subjectPhraseFilter msg || suppressHeaderFilter msg ||
    autoSubmittedFilter msg || selfSenderFilter msg agent_sender_email

/-- `IncidentParser.parse_email_to_incident` (`incident_parser.py`
lines 91-158) over an already-decoded message: apply the four rejection
filters in order (returning `none`, never raising); otherwise build the
`Incident`, whose id is the `Message-ID` value stripped of angle brackets
when that header decodes to a non-empty string, else
`"imap-uid-" ++ uid`. -/
def parse_email_to_incident (imap_msg_uid : String) (msg : EmailMessage)
    (agent_sender_email : Option String) : Option Incident :=
  let subject := msg.subject.getD "(No Subject)"
  if subjectPhraseFilter msg then none
  else if suppressHeaderFilter msg then none
  else if autoSubmittedFilter msg then none
  else if selfSenderFilter msg agent_sender_email then none
  else
    let message_id_header := msg.message_id.getD ""
    let incident_id :=
      if message_id_header != "" then pyStripAngles message_id_header
      else "imap-uid-" ++ imap_msg_uid
    some { id := incident_id
           source := "email"
           subject := pyStrip subject
           body := msg.body
           raw_content := msg.raw }

/-- The per-message dedup loop of
`EmailHandler.fetch_new_incidents_from_email` (`email_handler.py`
lines 80-122), over the parser's outputs: a parsed incident whose id is
already in `processed_incident_ids` is skipped; otherwise it is appended
to the result and its id is recorded in the set before the next message is
considered. Returns the new incidents and the updated id set. -/
def fetch_new_incidents_loop :
    List (Option Incident) → List String → List Incident × List String
  | [], processed_incident_ids => ([], processed_incident_ids)
  | none :: rest, processed_incident_ids =>
      fetch_new_incidents_loop rest processed_incident_ids
  | some incident :: rest, processed_incident_ids =>
      if incident.id ∈ processed_incident_ids then
        fetch_new_incidents_loop rest processed_incident_ids
      else
        let step := fetch_new_incidents_loop rest
          (incident.id :: processed_incident_ids)
        (incident :: step.1, step.2)

/-- Outcome of the SMTP send attempt in `send_acknowledgement_email`
(`email_handler.py` lines 202-218): success, an `smtplib.SMTPException`
with message `msg`, or any other exception with message `msg`. -/
inductive SmtpOutcome where
  | ok : SmtpOutcome
  | smtpError (msg : String) : SmtpOutcome
  | otherError (msg : String) : SmtpOutcome
deriving DecidableEq

/-- The external collaborators seen by one incident's lifecycle:
whether SMTP is fully configured (`email_handler.py` lines 150-151),
what the SMTP send attempt does, whether the Jira client connected
(`jira_handler.py` `self.jira_client`), what `create_issue` returns
(`some key` on success, `none` on a raised error), and the error-note
text built from the raised Jira exception (`jira_handler.py`
lines 123-145). -/
structure Env where
  smtp_configured : Bool
  smtp_result : SmtpOutcome
  jira_available : Bool
  jira_create_result : Option String
  jira_error_note : String
deriving DecidableEq

/-- `EmailHandler.send_acknowledgement_email` (`email_handler.py`
lines 148-218): skip with a note when SMTP is not configured or no
recipient is determined (Python `or` of the argument and the incident's
team email, both under truthiness); otherwise attempt the send - on
success set `is_acknowledged` and append a note, on any error append a
failure note and leave `is_acknowledged` unchanged. -/
def send_acknowledgement_email (cfg : ConfigManager) (env : Env)
    (incident : Incident) (recipient_email : Option String) : Incident :=
  if !env.smtp_configured then
    incident.add_note "Acknowledgement email skipped: SMTP not configured."
  else
    let actual_recipient :=
      if pyTruthy recipient_email then recipient_email.getD ""
      else incident.assigned_team_email.getD ""
    if actual_recipient == "" then
      incident.add_note
        "Acknowledgement email skipped: No recipient email determined."
    else
      match env.smtp_result with
      | SmtpOutcome.ok =>
          ({ incident with is_acknowledged := true }).add_note
            ("Acknowledgement email sent to " ++ actual_recipient ++ ".")
      | SmtpOutcome.smtpError e =>
          incident.add_note
            ("Failed to send acknowledgement email (SMTP Error): " ++ e)
      | SmtpOutcome.otherError e =>
          incident.add_note
            ("Failed to send acknowledgement email (Unexpected Error): " ++ e)

/-- `JiraHandler.create_jira_ticket_for_incident` (`jira_handler.py`
lines 52-147): bail out with a note when the client is unavailable; bail
out with a note when the incident's priority is not `"P1"` (Python
formats a missing priority as `"None"`); otherwise attempt creation - on
success store the key on the incident, note it and return it; on a raised
error append the error note and return `None`. -/
def create_jira_ticket_for_incident (cfg : ConfigManager) (env : Env)
    (incident : Incident) : Option String × Incident :=
  if !env.jira_available then
    (none, incident.add_note
      "Jira client is not initialized or connection failed. Cannot create ticket.")
  else if incident.priority != some "P1" then
    (none, incident.add_note ("Incident priority is " ++
      (incident.priority.getD "None") ++
      ", not P1. Jira ticket creation skipped by rule."))
  else
    match env.jira_create_result with
    | some key =>
        (some key,
         ({ incident with jira_ticket_key := some key }).add_note
           ("Jira ticket " ++ key ++ " created successfully."))
    | none => (none, incident.add_note env.jira_error_note)

/-- The start-of-processing note of `agent.py` line 71. -/
def startedNote (cfg : ConfigManager) : String :=
  "Agent \x27" ++ cfg.agent_name ++ "\x27 received and started processing."

/-- Steps 0-2 of `IncidentManagementAgent._process_single_incident`
(`agent.py` lines 70-80): the start note, priority classification and
team assignment, storing the results on the incident. -/
def process_stage_classified (cfg : ConfigManager) (incident : Incident) :
    Incident :=
  let incident := incident.add_note (startedNote cfg)
  let step := classify_incident_priority cfg incident
  let incident := { step.2 with priority := some step.1 }
  let step2 := assign_incident_to_team cfg incident
  { step2.2 with assigned_team := some step2.1.1,
                 assigned_team_email := some step2.1.2 }

/-- Step 3 of `_process_single_incident` (`agent.py` lines 83-91):
acknowledge via the assigned team email when one was determined (Python
truthiness), else append the skip note. -/
def ack_step (cfg : ConfigManager) (env : Env) (incident : Incident) :
    Incident :=
  if pyTruthy incident.assigned_team_email then
    send_acknowledgement_email cfg env incident incident.assigned_team_email
  else
    incident.add_note
      "Acknowledgement email skipped: No assigned team email was determined."

/-- Step 4 of `_process_single_incident` (`agent.py` lines 93-109): for a
`P1` incident attempt Jira ticket creation when the client is available,
else append the skip note; non-P1 incidents are left alone. -/
def ticket_step (cfg : ConfigManager) (env : Env) (incident : Incident) :
    Incident :=
  if incident.priority == some "P1" then
    if env.jira_available then
      (create_jira_ticket_for_incident cfg env incident).2
    else
      incident.add_note
        "Jira ticket creation skipped: Jira client is not available (e.g., connection failed or not configured). Cannot create P1 ticket."
  else incident

/-- `IncidentManagementAgent._process_single_incident` (`agent.py`
lines 65-116): classify and assign, then acknowledge, then ticket. -/
def process_single_incident (cfg : ConfigManager) (env : Env)
    (incident : Incident) : Incident :=
  ticket_step cfg env (ack_step cfg env (process_stage_classified cfg incident))

/-! Pure companions of the two classifier methods, used to state and prove
their data-flow properties: each method equals its pure result paired with
the input incident extended by computed notes. -/

/-- The priority `classify_incident_priority` computes, as a function of
the rule table and the scanned text alone. -/
def classifyResult (cfg : ConfigManager) (text : String) : String :=
  match scanLevels cfg text ["P1", "P2", "P3", "P4"] with
  | some r => r.1
  | none => "P3"

/-- The single note `classify_incident_priority` appends. -/
def classifyNote (cfg : ConfigManager) (text : String) : String :=
  match scanLevels cfg text ["P1", "P2", "P3", "P4"] with
  | some r => priorityNote r.1 r.2
  | none => defaultPriorityNote

/-- Pure companion of `assignTeamsLoop`: the loop's in-loop result (if
any) and the list of notes it appends, as a function of the rule table,
the scanned text and the incident's `assigned_team` field. -/
def assignScan (cfg : ConfigManager) (text : String)
    (assigned : Option String) :
    List (String × List String) → Option (String × String) × List String
  | [] => (none, [])
  | (team_name_key, keywords_for_team) :: rest =>
    match keywords_for_team.find? (fun keyword => pyIn keyword text) with
    | some keyword =>
      let team_email := (cfg.team_emails.lookup (pyLower team_name_key)).getD ""
      if team_email == "" then
        if pyTruthy assigned then (none, [noEmailNote keyword team_name_key])
        else
          let s := assignScan cfg text assigned rest
          (s.1, noEmailNote keyword team_name_key :: s.2)
      else
        (some (team_name_key, team_email),
         [assignedTeamNote team_name_key keyword team_email])
    | none =>
      if pyTruthy assigned then (none, [])
      else assignScan cfg text assigned rest

/-- The team/email pair `assign_incident_to_team` returns. -/
def assignResult (cfg : ConfigManager) (text : String)
    (assigned : Option String) : String × String :=
  match (assignScan cfg text assigned cfg.team_keywords).1 with
  | some r => r
  | none => (cfg.default_team_name, cfg.default_team_email)

/-- The notes `assign_incident_to_team` appends. -/
def assignNotes (cfg : ConfigManager) (text : String)
    (assigned : Option String) : List String :=
  match assignScan cfg text assigned cfg.team_keywords with
  | (some _, ns) => ns
  | (none, ns) => ns ++ [defaultTeamNote cfg]

/-- The notes an operation appended to an incident. -/
def notesAppended (before after : Incident) : List String :=
  after.processing_notes.drop before.processing_notes.length

/-- Some keyword of the given priority level is a substring of `text`. -/
def level_matches (cfg : ConfigManager) (text : String) (p_level : String) :
    Bool :=
  ((cfg.priority_keywords.lookup p_level).getD []).any
    (fun keyword => pyIn keyword text)

/-- Severity order of the priority levels: `P1` is most severe (rank 1). -/
def levelRank : String → Nat
  | "P1" => 1
  | "P2" => 2
  | "P3" => 3
  | _ => 4

/-- No configured priority keyword of any level is a substring of the
incident's scanned text. -/
def no_priority_keyword_matches (cfg : ConfigManager) (incident : Incident) :
    Bool :=
  (["P1", "P2", "P3", "P4"]).all
    (fun p_level => !(level_matches cfg (scanText incident) p_level))

/-- The failure note `send_acknowledgement_email` appends for each failing
outcome of the send attempt (`none` for a successful send). -/
def smtpFailNote : SmtpOutcome → Option String
  | SmtpOutcome.ok => none
  | SmtpOutcome.smtpError e =>
      some ("Failed to send acknowledgement email (SMTP Error): " ++ e)
  | SmtpOutcome.otherError e =>
      some ("Failed to send acknowledgement email (Unexpected Error): " ++ e)

/-! Concrete rule tables, incidents, messages and environments used to
evaluate the development on closed inputs. -/

def c1Cfg : ConfigManager :=
  { agent_name := "IncidentAgent"
    team_keywords := [("NetworkTeam", ["network"]), ("DatabaseTeam", ["db"])]
    team_emails := [("databaseteam", "db-team@example.com"),
                    ("supportteam", "support-team@example.com")]
    default_team_name := "SupportTeam"
    priority_keywords := [("P1", []), ("P2", []), ("P3", []), ("P4", [])] }

def c1Inc : Incident :=
  { id := "c1", source := "email", subject := "network and db down",
    body := "", raw_content := "" }

def c2Cfg : ConfigManager :=
  { agent_name := "IncidentAgent"
    team_keywords := []
    team_emails := [("supportteam", "support-team@example.com")]
    default_team_name := "SupportTeam"
    priority_keywords := [("P1", ["outage"]), ("P2", ["degraded"]),
                          ("P3", []), ("P4", [])] }

def c2Inc : Incident :=
  { id := "c2", source := "email", subject := "service degraded",
    body := "total outage reported", raw_content := "" }

def c3Cfg : ConfigManager :=
  { agent_name := "IncidentAgent"
    team_keywords := []
    team_emails := [("supportteam", "support-team@example.com")]
    default_team_name := "SupportTeam"
    priority_keywords := [("P1", ["urgent"]), ("P2", ["high"]),
                          ("P3", []), ("P4", [])] }

def c3Inc : Incident :=
  { id := "c3", source := "email", subject := "minor ui glitch",
    body := "button misaligned", raw_content := "" }

def c4Cfg : ConfigManager :=
  { agent_name := "IncidentAgent"
    team_keywords := [("DatabaseTeam", ["db"])]
    team_emails := [("databaseteam", "db-team@example.com"),
                    ("supportteam", "support-team@example.com")]
    default_team_name := "SupportTeam"
    priority_keywords := [("P1", ["urgent"]), ("P2", []),
                          ("P3", []), ("P4", [])] }

def c4Env : Env :=
  { smtp_configured := true, smtp_result := SmtpOutcome.ok
    jira_available := true, jira_create_result := some "ITSM-1"
    jira_error_note := "Jira API Error creating ticket: Status 500 - boom." }

def c4Inc : Incident :=
  { id := "c4", source := "email", subject := "small papercut",
    body := "cosmetic issue", raw_content := "" }

def c5MsgAuto : EmailMessage :=
  { subject := some "Automatic Reply: Out of Office"
    from_address := "someone@example.com"
    x_auto_response_suppress := none, auto_submitted := none
    message_id := some "<m@x>", body := "b", raw := "r" }

def c5MsgSelf : EmailMessage :=
  { subject := some "Incident report"
    from_address := "Agent@Example.com"
    x_auto_response_suppress := none, auto_submitted := none
    message_id := some "<m2@x>", body := "b", raw := "r" }

def c6Cfg : ConfigManager :=
  { agent_name := "IncidentAgent"
    team_keywords := [("DatabaseTeam", ["db"])]
    team_emails := [("databaseteam", "db-team@example.com"),
                    ("supportteam", "support-team@example.com")]
    default_team_name := "SupportTeam"
    priority_keywords := [("P1", ["outage"]), ("P2", []),
                          ("P3", []), ("P4", [])] }

def c6Env : Env :=
  { smtp_configured := true
    smtp_result := SmtpOutcome.smtpError "connection refused"
    jira_available := true, jira_create_result := some "ITSM-7"
    jira_error_note := "Jira API Error creating ticket: Status 500 - boom." }

def c6Inc : Incident :=
  { id := "c6", source := "email", subject := "db outage",
    body := "production db is down", raw_content := "" }

def c7Inc1 : Incident :=
  { id := "mid-1", source := "email", subject := "first copy",
    body := "b1", raw_content := "" }

def c7Inc2 : Incident :=
  { id := "mid-1", source := "email", subject := "second copy",
    body := "b2", raw_content := "" }

def c8Msg : EmailMessage :=
  { subject := some "Server down", from_address := "user@example.com"
    x_auto_response_suppress := none, auto_submitted := none
    message_id := some "<>", body := "b", raw := "r" }

def c8GoodMsg : EmailMessage :=
  { subject := some "Server down", from_address := "user@example.com"
    x_auto_response_suppress := none, auto_submitted := none
    message_id := some "<abc@host>", body := "b", raw := "r" }

def c8GoodInc : Incident :=
  { id := "abc@host", source := "email", subject := "Server down",
    body := "b", raw_content := "r" }

def c9Cfg : ConfigManager :=
  { agent_name := "IncidentAgent"
    team_keywords := [("DatabaseTeam", ["db"])]
    team_emails := [("databaseteam", "db-team@example.com"),
                    ("supportteam", "support-team@example.com")]
    default_team_name := "SupportTeam"
    priority_keywords := [("P1", ["urgent"]), ("P2", []),
                          ("P3", []), ("P4", [])] }

def c9Inc1 : Incident :=
  { id := "one", source := "email", subject := "urgent db issue",
    body := "db slow", raw_content := "x",
    processing_notes := ["an earlier note"] }

def c9Inc2 : Incident :=
  { id := "two", source := "email", subject := "urgent db issue",
    body := "db slow", raw_content := "y" }

def c10Cfg : ConfigManager :=
  { agent_name := "IncidentAgent"
    team_keywords := []
    team_emails := [("defaultteam", "")]
    default_team_name := "DefaultTeam"
    priority_keywords := [("P1", []), ("P2", []), ("P3", []), ("P4", [])] }

def c10Env : Env :=
  { smtp_configured := true, smtp_result := SmtpOutcome.ok
    jira_available := false, jira_create_result := none
    jira_error_note := "e" }

def c10Inc : Incident :=
  { id := "c10", source := "email", subject := "s", body := "b",
    raw_content := "" }

def c10GoodCfg : ConfigManager :=
  { agent_name := "IncidentAgent"
    team_keywords := [("NetworkTeam", ["network"])]
    team_emails := [("supportteam", "support-team@example.com")]
    default_team_name := "SupportTeam"
    priority_keywords := [("P1", []), ("P2", []), ("P3", []), ("P4", [])] }

def c10GoodInc : Incident :=
  { id := "c10g", source := "email", subject := "network broken",
    body := "", raw_content := "" }

def devCfgA : ConfigManager :=
  { agent_name := "IncidentAgent"
    team_keywords := [("DatabaseTeam", ["db", "database"])]
    team_emails := [("databaseteam", "dbt@example.com"),
                    ("supportteam", "support-team@example.com")]
    default_team_name := "SupportTeam"
    priority_keywords := [("P1", ["urgent", "outage"]), ("P2", ["high"]),
                          ("P3", []), ("P4", [])] }

def devIncA : Incident :=
  { id := "a", source := "email", subject := "URGENT: Database outage",
    body := "production db is down", raw_content := "" }

/-! Sanity evaluations of the embedding on concrete inputs. -/

/-- Keyword matching is substring-based and case-insensitive: `db`
matches "production db is down", while `sql` does not occur in the
negative-control text. -/
theorem devCheck_pyIn : pyIn "db" "production db is down" = true ∧
    pyIn "sql" "minor ui glitch button misaligned" = false := by decide

/-- End-to-end scenario: subject "URGENT: Database outage" with the
sample table classifies as `P1` and routes to `DatabaseTeam`. -/
theorem devCheck_scenarioA :
    (classify_incident_priority devCfgA devIncA).1 = "P1" ∧
    (assign_incident_to_team devCfgA devIncA).1 =
      ("DatabaseTeam", "dbt@example.com") := by decide

/-- Parsing rejects an out-of-office subject and accepts a plain report,
trimming the `Message-ID` into the incident id. -/
theorem devCheck_parse :
    (parse_email_to_incident "5"
      { subject := some "Automatic Reply: Out of Office",
        from_address := "a@b.c", x_auto_response_suppress := none,
        auto_submitted := none, message_id := some "<m1@x>",
        body := "", raw := "" } none) = none ∧
    (parse_email_to_incident "5"
      { subject := some "Server down", from_address := "a@b.c",
        x_auto_response_suppress := none, auto_submitted := none,
        message_id := some "<m1@x>", body := "b", raw := "r" } none) =
      some { id := "m1@x", source := "email", subject := "Server down",
             body := "b", raw_content := "r" } := by decide

/-! Basic facts about `Incident.add_note` and the scanned text. -/

@[simp] theorem add_note_id (i : Incident) (n : String) :
    (i.add_note n).id = i.id := rfl

@[simp] theorem add_note_priority (i : Incident) (n : String) :
    (i.add_note n).priority = i.priority := rfl

@[simp] theorem add_note_assigned_team (i : Incident) (n : String) :
    (i.add_note n).assigned_team = i.assigned_team := rfl

@[simp] theorem add_note_assigned_team_email (i : Incident) (n : String) :
    (i.add_note n).assigned_team_email = i.assigned_team_email := rfl

@[simp] theorem add_note_is_acknowledged (i : Incident) (n : String) :
    (i.add_note n).is_acknowledged = i.is_acknowledged := rfl

@[simp] theorem add_note_jira_ticket_key (i : Incident) (n : String) :
    (i.add_note n).jira_ticket_key = i.jira_ticket_key := rfl

@[simp] theorem add_note_processing_notes (i : Incident) (n : String) :
    (i.add_note n).processing_notes = i.processing_notes ++ [n] := rfl

@[simp] theorem scanText_add_note (i : Incident) (n : String) :
    scanText (i.add_note n) = scanText i := rfl

/-- `classify_incident_priority` equals its pure companion: the computed
priority, and the input incident with exactly one appended note. -/
theorem classify_spec (cfg : ConfigManager) (incident : Incident) :
    classify_incident_priority cfg incident =
      (classifyResult cfg (scanText incident),
       incident.add_note (classifyNote cfg (scanText incident))) := by
  unfold classify_incident_priority classifyResult classifyNote
  cases h : scanLevels cfg (scanText incident) ["P1", "P2", "P3", "P4"] with
  | none => simp [h]
  | some r => obtain ⟨l, kw⟩ := r; simp [h]

/-- `assignTeamsLoop` equals its pure companion `assignScan`. -/
theorem assignTeamsLoop_spec (cfg : ConfigManager) (text : String)
    (ts : List (String × List String)) :
    ∀ incident : Incident,
      assignTeamsLoop cfg incident text ts =
        ((assignScan cfg text incident.assigned_team ts).1,
         { incident with processing_notes := incident.processing_notes ++
             (assignScan cfg text incident.assigned_team ts).2 }) := by
  induction ts with
  | nil => intro inc; simp [assignTeamsLoop, assignScan]
  | cons t rest ih =>
    intro inc
    obtain ⟨name, kws⟩ := t
    show assignTeamsLoop cfg inc text ((name, kws) :: rest) = _
    cases h : kws.find? (fun keyword => pyIn keyword text) with
    | none =>
      cases hp : pyTruthy inc.assigned_team with
      | true => simp [assignTeamsLoop, assignScan, h, hp]
      | false => simp [assignTeamsLoop, assignScan, h, hp, ih inc]
    | some kw =>
      by_cases he :
          ((cfg.team_emails.lookup (pyLower name)).getD "") == ""
      · cases hp : pyTruthy inc.assigned_team with
        | true => simp [assignTeamsLoop, assignScan, h, he, hp, Incident.add_note]
        | false =>
          rw [show (assignTeamsLoop cfg inc text ((name, kws) :: rest)) =
              (assignTeamsLoop cfg (inc.add_note (noEmailNote kw name))
                text rest) from by simp [assignTeamsLoop, h, he, hp]]
          rw [ih (inc.add_note (noEmailNote kw name))]
          simp [assignScan, h, he, hp, Incident.add_note, List.append_assoc]
      · simp [assignTeamsLoop, assignScan, h, he, Incident.add_note]

/-- `assign_incident_to_team` equals its pure companions. -/
theorem assign_spec (cfg : ConfigManager) (incident : Incident) :
    assign_incident_to_team cfg incident =
      (assignResult cfg (scanText incident) incident.assigned_team,
       { incident with processing_notes :=
           incident.processing_notes ++
             assignNotes cfg (scanText incident) incident.assigned_team }) := by
  unfold assign_incident_to_team assignResult assignNotes
  simp only [assignTeamsLoop_spec]
  cases hscan : assignScan cfg (scanText incident) incident.assigned_team
      cfg.team_keywords with
  | mk r ns =>
    cases r with
    | none => simp [hscan, Incident.add_note]
    | some v => simp [hscan]

/-- Projections of `classify_incident_priority` through `classify_spec`. -/
theorem classify_fst (cfg : ConfigManager) (incident : Incident) :
    (classify_incident_priority cfg incident).1 =
      classifyResult cfg (scanText incident) := by
  rw [classify_spec]

/-- The incident side of `classify_incident_priority`. -/
theorem classify_snd (cfg : ConfigManager) (incident : Incident) :
    (classify_incident_priority cfg incident).2 =
      incident.add_note (classifyNote cfg (scanText incident)) := by
  rw [classify_spec]

/-- Projection of `assign_incident_to_team` through `assign_spec`. -/
theorem assign_fst (cfg : ConfigManager) (incident : Incident) :
    (assign_incident_to_team cfg incident).1 =
      assignResult cfg (scanText incident) incident.assigned_team := by
  rw [assign_spec]

/-- The classification stage of the lifecycle as one record update: it
computes the priority and team from the rule table and the scanned text,
and appends the start, classification and assignment notes. -/
theorem stage_spec (cfg : ConfigManager) (incident : Incident) :
    process_stage_classified cfg incident =
      { incident with
          priority := some (classifyResult cfg (scanText incident)),
          assigned_team :=
            some (assignResult cfg (scanText incident)
              incident.assigned_team).1,
          assigned_team_email :=
            some (assignResult cfg (scanText incident)
              incident.assigned_team).2,
          processing_notes := incident.processing_notes ++
            ([startedNote cfg, classifyNote cfg (scanText incident)] ++
              assignNotes cfg (scanText incident) incident.assigned_team) } := by
  unfold process_stage_classified
  simp only [classify_spec, assign_spec, Incident.add_note]
  simp [scanText, List.append_assoc]

/-- Fields `send_acknowledgement_email` never changes. -/
theorem send_ack_fields (cfg : ConfigManager) (env : Env) (incident : Incident)
    (recipient_email : Option String) :
    (send_acknowledgement_email cfg env incident recipient_email).priority =
        incident.priority ∧
    (send_acknowledgement_email cfg env incident recipient_email).assigned_team =
        incident.assigned_team ∧
    (send_acknowledgement_email cfg env incident
        recipient_email).assigned_team_email = incident.assigned_team_email ∧
    (send_acknowledgement_email cfg env incident
        recipient_email).jira_ticket_key = incident.jira_ticket_key := by
  unfold send_acknowledgement_email
  rcases env.smtp_result <;> split_ifs <;> simp [Incident.add_note] <;>
    split_ifs <;> simp [Incident.add_note]

/-- On any failing send outcome (with SMTP configured and a truthy
recipient), `send_acknowledgement_email` exactly appends the failure note
and changes nothing else. -/
theorem send_ack_fail_eq (cfg : ConfigManager) (env : Env)
    (incident : Incident) (recipient_email : Option String) (n : String)
    (hc : env.smtp_configured = true) (hr : pyTruthy recipient_email = true)
    (hn : smtpFailNote env.smtp_result = some n) :
    send_acknowledgement_email cfg env incident recipient_email =
      incident.add_note n := by
  rcases recipient_email with _ | s
  · simp [pyTruthy] at hr
  · have hs : (s == "") = false := by
      simpa [pyTruthy, bne] using hr
    have hs2 : ¬(s = "") := by simpa using hs
    unfold send_acknowledgement_email
    rcases hres : env.smtp_result with _ | e | e <;>
      simp [hres, smtpFailNote] at hn <;>
      simp [hc, hr, hs, hs2, pyTruthy, hres, ← hn]

/-- Fields `create_jira_ticket_for_incident` never changes. -/
theorem create_fields (cfg : ConfigManager) (env : Env) (incident : Incident) :
    (create_jira_ticket_for_incident cfg env incident).2.priority =
        incident.priority ∧
    (create_jira_ticket_for_incident cfg env incident).2.is_acknowledged =
        incident.is_acknowledged ∧
    (create_jira_ticket_for_incident cfg env incident).2.assigned_team =
        incident.assigned_team := by
  unfold create_jira_ticket_for_incident
  rcases env.jira_create_result <;> split_ifs <;> simp [Incident.add_note]

/-- On a non-P1 incident, `create_jira_ticket_for_incident` returns no key
and leaves the ticket key untouched. -/
theorem create_nonp1 (cfg : ConfigManager) (env : Env) (incident : Incident)
    (h : incident.priority ≠ some "P1") :
    (create_jira_ticket_for_incident cfg env incident).1 = none ∧
    (create_jira_ticket_for_incident cfg env incident).2.jira_ticket_key =
      incident.jira_ticket_key := by
  have hb : (incident.priority != some "P1") = true := by
    simp [bne_iff_ne, h]
  unfold create_jira_ticket_for_incident
  cases hja : env.jira_available <;> simp [hja, hb, Incident.add_note]

/-- The ticket key after `create_jira_ticket_for_incident`: either
untouched, or set to the collaborator's key for a P1 incident. -/
theorem create_key_cases (cfg : ConfigManager) (env : Env)
    (incident : Incident) :
    (create_jira_ticket_for_incident cfg env incident).2.jira_ticket_key =
        incident.jira_ticket_key ∨
      (∃ k, incident.priority = some "P1" ∧ env.jira_available = true ∧
        env.jira_create_result = some k ∧
        (create_jira_ticket_for_incident cfg env incident).2.jira_ticket_key =
          some k) := by
  unfold create_jira_ticket_for_incident
  cases hja : env.jira_available with
  | false => simp
  | true =>
    by_cases hp : incident.priority = some "P1"
    · rcases hk : env.jira_create_result with _ | k
      · simp [hja, hp, hk, Incident.add_note]
      · exact Or.inr ⟨k, hp, rfl, rfl, by simp [hja, hp, hk, Incident.add_note]⟩
    · have hb : (incident.priority != some "P1") = true := by
        simp [bne_iff_ne, hp]
      simp [hja, hb, Incident.add_note]

/-- P1 incident, client available, collaborator succeeds: the returned key
is stored on the incident. -/
theorem create_p1_success (cfg : ConfigManager) (env : Env)
    (incident : Incident) (k : String) (hp : incident.priority = some "P1")
    (ha : env.jira_available = true) (hk : env.jira_create_result = some k) :
    (create_jira_ticket_for_incident cfg env incident).2.jira_ticket_key =
      some k := by
  unfold create_jira_ticket_for_incident
  simp [hp, ha, hk, Incident.add_note]

/-- `create_jira_ticket_for_incident` only appends notes. -/
theorem create_notes_mono (cfg : ConfigManager) (env : Env)
    (incident : Incident) (n : String)
    (h : n ∈ incident.processing_notes) :
    n ∈ (create_jira_ticket_for_incident cfg env incident).2.processing_notes := by
  unfold create_jira_ticket_for_incident
  rcases env.jira_create_result <;> split_ifs <;>
    simp [Incident.add_note, h]

/-- A level returned by `scanLevels` comes from the scanned level list. -/
theorem scanLevels_mem (cfg : ConfigManager) (text : String) :
    ∀ (ls : List String) (l kw : String),
      scanLevels cfg text ls = some (l, kw) → l ∈ ls := by
  intro ls
  induction ls with
  | nil => intro l kw h; simp [scanLevels] at h
  | cons a rest ih =>
    intro l kw h
    simp only [scanLevels] at h
    cases hf : ((cfg.priority_keywords.lookup a).getD []).find?
        (fun keyword => pyIn keyword text) with
    | some k =>
      rw [hf] at h
      simp only [Option.some.injEq, Prod.mk.injEq] at h
      simp [h.1]
    | none =>
      rw [hf] at h
      exact List.mem_cons_of_mem _ (ih l kw h)

/-- A matching level yields a keyword found by `find?`. -/
theorem level_matches_true (cfg : ConfigManager) (text l : String)
    (h : level_matches cfg text l = true) :
    ∃ kw, ((cfg.priority_keywords.lookup l).getD []).find?
      (fun keyword => pyIn keyword text) = some kw := by
  obtain ⟨x, hx, hp⟩ := List.any_eq_true.mp h
  exact Option.isSome_iff_exists.mp (List.find?_isSome.mpr ⟨x, hx, hp⟩)

/-- A non-matching level yields no keyword. -/
theorem level_matches_false (cfg : ConfigManager) (text l : String)
    (h : level_matches cfg text l = false) :
    ((cfg.priority_keywords.lookup l).getD []).find?
      (fun keyword => pyIn keyword text) = none := by
  rw [List.find?_eq_none]
  intro x hx hpx
  have : level_matches cfg text l = true := List.any_eq_true.mpr ⟨x, hx, hpx⟩
  rw [h] at this
  exact Bool.false_ne_true this

/-- When `P1` matches, the classifier returns `P1`. -/
theorem classifyResult_P1 (cfg : ConfigManager) (text : String)
    (h1 : level_matches cfg text "P1" = true) :
    classifyResult cfg text = "P1" := by
  obtain ⟨kw, hkw⟩ := level_matches_true cfg text "P1" h1
  simp [classifyResult, scanLevels, hkw]

/-- When `P1` misses and `P2` matches, the classifier returns `P2`. -/
theorem classifyResult_P2 (cfg : ConfigManager) (text : String)
    (h1 : level_matches cfg text "P1" = false)
    (h2 : level_matches cfg text "P2" = true) :
    classifyResult cfg text = "P2" := by
  obtain ⟨kw, hkw⟩ := level_matches_true cfg text "P2" h2
  simp [classifyResult, scanLevels, level_matches_false cfg text "P1" h1, hkw]

/-- When `P1`, `P2` miss and `P3` matches, the classifier returns `P3`. -/
theorem classifyResult_P3 (cfg : ConfigManager) (text : String)
    (h1 : level_matches cfg text "P1" = false)
    (h2 : level_matches cfg text "P2" = false)
    (h3 : level_matches cfg text "P3" = true) :
    classifyResult cfg text = "P3" := by
  obtain ⟨kw, hkw⟩ := level_matches_true cfg text "P3" h3
  simp [classifyResult, scanLevels, level_matches_false cfg text "P1" h1,
    level_matches_false cfg text "P2" h2, hkw]

/-- When `P1`-`P3` miss and `P4` matches, the classifier returns `P4`. -/
theorem classifyResult_P4 (cfg : ConfigManager) (text : String)
    (h1 : level_matches cfg text "P1" = false)
    (h2 : level_matches cfg text "P2" = false)
    (h3 : level_matches cfg text "P3" = false)
    (h4 : level_matches cfg text "P4" = true) :
    classifyResult cfg text = "P4" := by
  obtain ⟨kw, hkw⟩ := level_matches_true cfg text "P4" h4
  simp [classifyResult, scanLevels, level_matches_false cfg text "P1" h1,
    level_matches_false cfg text "P2" h2,
    level_matches_false cfg text "P3" h3, hkw]

/-- When no configured priority keyword matches, the level scan is empty. -/
theorem scanLevels_none_of_no_match (cfg : ConfigManager)
    (incident : Incident)
    (h : no_priority_keyword_matches cfg incident = true) :
    scanLevels cfg (scanText incident) ["P1", "P2", "P3", "P4"] = none := by
  simp only [no_priority_keyword_matches, List.all_cons, List.all_nil,
    Bool.and_eq_true, Bool.not_eq_true'] at h
  obtain ⟨h1, h2, h3, h4, -⟩ := h
  simp [scanLevels, level_matches_false cfg _ "P1" h1,
    level_matches_false cfg _ "P2" h2, level_matches_false cfg _ "P3" h3,
    level_matches_false cfg _ "P4" h4]

/-- The classifier's result level is always drawn from the closed set. -/
theorem classifyResult_mem (cfg : ConfigManager) (text : String) :
    classifyResult cfg text ∈ (["P1", "P2", "P3", "P4"] : List String) := by
  unfold classifyResult
  cases h : scanLevels cfg text ["P1", "P2", "P3", "P4"] with
  | none => simp
  | some r =>
    obtain ⟨l, kw⟩ := r
    simpa using scanLevels_mem cfg text _ l kw h

/-- A team returned from inside the scanning loop always carries a
non-empty email: the `if not team_email` guard diverts empty or missing
entries to the warning path. -/
theorem assignScan_some_ne (cfg : ConfigManager) (text : String)
    (assigned : Option String) :
    ∀ (ts : List (String × List String)) (n e : String),
      (assignScan cfg text assigned ts).1 = some (n, e) → e ≠ "" := by
  intro ts
  induction ts with
  | nil => intro n e h; simp [assignScan] at h
  | cons t rest ih =>
    intro n e h
    obtain ⟨name, kws⟩ := t
    simp only [assignScan] at h
    cases hf : kws.find? (fun keyword => pyIn keyword text) with
    | none =>
      simp only [hf] at h
      cases hp : pyTruthy assigned <;> simp only [hp] at h
      · exact ih n e h
      · simp at h
    | some kw =>
      simp only [hf] at h
      by_cases he : (((cfg.team_emails.lookup (pyLower name)).getD "") == "") = true
      · rw [if_pos he] at h
        cases hp : pyTruthy assigned <;> simp only [hp] at h
        · exact ih n e h
        · simp at h
      · rw [if_neg he] at h
        simp only [Option.some.injEq, Prod.mk.injEq] at h
        intro hcontra
        apply he
        rw [h.2, hcontra]
        simp

/-- The default team email is non-empty unless the `[TeamEmails]` section
stores the empty string under the default team's (lowercased) name. -/
theorem default_team_email_ne (cfg : ConfigManager)
    (h : cfg.team_emails.lookup (pyLower cfg.default_team_name) ≠ some "") :
    cfg.default_team_email ≠ "" := by
  intro hcontra
  apply h
  unfold ConfigManager.default_team_email at hcontra
  cases hl : cfg.team_emails.lookup (pyLower cfg.default_team_name) with
  | none => rw [hl] at hcontra; simp at hcontra
  | some v =>
    rw [hl] at hcontra
    simp at hcontra
    rw [hcontra]

/-- Under the same proviso, the email component `assign_incident_to_team`
computes is never empty. -/
theorem assignResult_email_ne (cfg : ConfigManager) (text : String)
    (assigned : Option String)
    (h : cfg.team_emails.lookup (pyLower cfg.default_team_name) ≠ some "") :
    (assignResult cfg text assigned).2 ≠ "" := by
  unfold assignResult
  cases hs : (assignScan cfg text assigned cfg.team_keywords).1 with
  | none => exact default_team_email_ne cfg h
  | some r =>
    obtain ⟨n, e⟩ := r
    exact assignScan_some_ne cfg text assigned _ n e hs

/-- A prefix occurs as a substring. -/
theorem listInfixOf_of_isPrefixOf (n hay : List Char)
    (h : n.isPrefixOf hay = true) : listInfixOf n hay = true := by
  cases hay with
  | nil =>
    cases n with
    | nil => rfl
    | cons a as => simp [List.isPrefixOf] at h
  | cons c rest => simp [listInfixOf, h]

/-- Being a prefix survives extending the larger list on the right. -/
theorem isPrefixOf_append_right (l1 l2 l3 : List Char)
    (h : l1.isPrefixOf l2 = true) : l1.isPrefixOf (l2 ++ l3) = true := by
  induction l1 generalizing l2 with
  | nil => simp [List.isPrefixOf]
  | cons a as ih =>
    cases l2 with
    | nil => simp [List.isPrefixOf] at h
    | cons b bs =>
      simp only [List.cons_append, List.isPrefixOf, Bool.and_eq_true] at h ⊢
      exact ⟨h.1, ih bs h.2⟩

/-- A string prefix of `lit` is a Python substring of `lit ++ e`. -/
theorem pyIn_of_prefix (p lit e : String)
    (h : p.data.isPrefixOf lit.data = true) :
    pyIn p (lit ++ e) = true := by
  unfold pyIn
  rw [String.data_append]
  exact listInfixOf_of_isPrefixOf _ _ (isPrefixOf_append_right _ _ _ h)

/-- Ids already recorded stay recorded across the fetch loop. -/
theorem fetch_loop_subset (msgs : List (Option Incident)) :
    ∀ (s : List String) (x : String), x ∈ s →
      x ∈ (fetch_new_incidents_loop msgs s).2 := by
  induction msgs with
  | nil => intro s x hx; simpa [fetch_new_incidents_loop] using hx
  | cons m rest ih =>
    intro s x hx
    cases m with
    | none => exact ih s x hx
    | some i =>
      simp only [fetch_new_incidents_loop]
      by_cases hm : i.id ∈ s
      · rw [if_pos hm]; exact ih s x hx
      · rw [if_neg hm]; exact ih _ x (List.mem_cons_of_mem _ hx)

/-- An id already recorded before the loop never reappears in its output. -/
theorem fetch_loop_count_zero (msgs : List (Option Incident)) :
    ∀ (s : List String) (x : String), x ∈ s →
      (fetch_new_incidents_loop msgs s).1.countP (fun i => i.id == x) = 0 := by
  induction msgs with
  | nil => intro s x hx; simp [fetch_new_incidents_loop]
  | cons m rest ih =>
    intro s x hx
    cases m with
    | none => exact ih s x hx
    | some i =>
      simp only [fetch_new_incidents_loop]
      by_cases hm : i.id ∈ s
      · rw [if_pos hm]; exact ih s x hx
      · rw [if_neg hm]
        have hne : (i.id == x) = false := by
          simp only [beq_eq_false_iff_ne, ne_eq]
          intro hcontra
          exact hm (hcontra ▸ hx)
        simp [List.countP_cons, hne,
          ih (i.id :: s) x (List.mem_cons_of_mem _ hx)]

/-- When some message in the batch parses to id `x` not yet recorded, the
loop emits exactly one incident with id `x` and records `x`. -/
theorem fetch_loop_count_one (msgs : List (Option Incident)) :
    ∀ (s : List String) (x : String), x ∉ s →
      (∃ inc, some inc ∈ msgs ∧ inc.id = x) →
      (fetch_new_incidents_loop msgs s).1.countP (fun i => i.id == x) = 1 ∧
        x ∈ (fetch_new_incidents_loop msgs s).2 := by
  induction msgs with
  | nil =>
    intro s x hx hex
    obtain ⟨inc, hmem, -⟩ := hex
    simp at hmem
  | cons m rest ih =>
    intro s x hx hex
    cases m with
    | none =>
      obtain ⟨inc, hmem, hid⟩ := hex
      have hmem2 : some inc ∈ rest := by
        rcases List.mem_cons.mp hmem with heq | h2
        · exact absurd heq (by simp)
        · exact h2
      exact ih s x hx ⟨inc, hmem2, hid⟩
    | some j =>
      simp only [fetch_new_incidents_loop]
      by_cases hm : j.id ∈ s
      · rw [if_pos hm]
        have hjx : j.id ≠ x := fun hc => hx (hc ▸ hm)
        obtain ⟨inc, hmem, hid⟩ := hex
        have hmem2 : some inc ∈ rest := by
          rcases List.mem_cons.mp hmem with heq | h2
          · exfalso
            apply hjx
            have hij : inc = j := by injection heq
            rw [← hij]
            exact hid
          · exact h2
        exact ih s x hx ⟨inc, hmem2, hid⟩
      · rw [if_neg hm]
        by_cases hjx : j.id = x
        · subst hjx
          constructor
          · have hz := fetch_loop_count_zero rest (j.id :: s) j.id
              (List.mem_cons_self _ _)
            simp [List.countP_cons, hz]
          · exact fetch_loop_subset rest _ j.id (List.mem_cons_self _ _)
        · have hne : (j.id == x) = false := by
            rw [beq_eq_false_iff_ne]; exact hjx
          obtain ⟨inc, hmem, hid⟩ := hex
          have hmem2 : some inc ∈ rest := by
            rcases List.mem_cons.mp hmem with heq | h2
            · exact absurd heq (by
                intro hc
                apply hjx
                have : inc = j := by injection hc
                rw [← this, hid])
            · exact h2
          have hx2 : x ∉ j.id :: s := by
            intro hc
            rcases List.mem_cons.mp hc with hc1 | hc2
            · exact hjx hc1.symm
            · exact hx hc2
          obtain ⟨hcount, hmemS⟩ := ih (j.id :: s) x hx2 ⟨inc, hmem2, hid⟩
          exact ⟨by simp [List.countP_cons, hne, hcount], hmemS⟩

/-- Fields the acknowledgement step never changes. -/
theorem ack_step_fields (cfg : ConfigManager) (env : Env) (i : Incident) :
    (ack_step cfg env i).priority = i.priority ∧
    (ack_step cfg env i).jira_ticket_key = i.jira_ticket_key ∧
    (ack_step cfg env i).assigned_team = i.assigned_team ∧
    (ack_step cfg env i).assigned_team_email = i.assigned_team_email := by
  unfold ack_step
  split_ifs
  · obtain ⟨h1, h2, h3, h4⟩ := send_ack_fields cfg env i i.assigned_team_email
    exact ⟨h1, h4, h2, h3⟩
  · simp

/-- With SMTP configured, a truthy team email and a failing send, the
acknowledgement step appends exactly the failure note. -/
theorem ack_step_fail (cfg : ConfigManager) (env : Env) (i : Incident)
    (n : String) (hc : env.smtp_configured = true)
    (he : pyTruthy i.assigned_team_email = true)
    (hn : smtpFailNote env.smtp_result = some n) :
    ack_step cfg env i = i.add_note n := by
  unfold ack_step
  rw [if_pos he]
  exact send_ack_fail_eq cfg env i i.assigned_team_email n hc he hn

/-- The ticket step does not change the priority. -/
theorem ticket_step_priority (cfg : ConfigManager) (env : Env) (i : Incident) :
    (ticket_step cfg env i).priority = i.priority := by
  unfold ticket_step
  split_ifs
  · exact (create_fields cfg env i).1
  · simp
  · rfl

/-- The ticket step does not change the acknowledgement flag. -/
theorem ticket_step_ack (cfg : ConfigManager) (env : Env) (i : Incident) :
    (ticket_step cfg env i).is_acknowledged = i.is_acknowledged := by
  unfold ticket_step
  split_ifs
  · exact (create_fields cfg env i).2.1
  · simp
  · rfl

/-- The ticket step does not change the assigned team. -/
theorem ticket_step_team (cfg : ConfigManager) (env : Env) (i : Incident) :
    (ticket_step cfg env i).assigned_team = i.assigned_team := by
  unfold ticket_step
  split_ifs
  · exact (create_fields cfg env i).2.2
  · simp
  · rfl

/-- The ticket step only appends notes. -/
theorem ticket_step_notes_mono (cfg : ConfigManager) (env : Env)
    (i : Incident) (n : String) (h : n ∈ i.processing_notes) :
    n ∈ (ticket_step cfg env i).processing_notes := by
  unfold ticket_step
  split_ifs
  · exact create_notes_mono cfg env i n h
  · simp [Incident.add_note, h]
  · exact h

/-- After the ticket step, the ticket key is either untouched or set to
the collaborator's key for a `P1` incident. -/
theorem ticket_step_key_cases (cfg : ConfigManager) (env : Env)
    (i : Incident) :
    (ticket_step cfg env i).jira_ticket_key = i.jira_ticket_key ∨
      ((ticket_step cfg env i).priority = some "P1" ∧
        ∃ k, (ticket_step cfg env i).jira_ticket_key = some k ∧
          env.jira_create_result = some k) := by
  unfold ticket_step
  by_cases hp : (i.priority == some "P1") = true
  · have hp2 : i.priority = some "P1" := by simpa using hp
    rw [if_pos hp]
    by_cases ha : env.jira_available = true
    · rw [if_pos ha]
      rcases create_key_cases cfg env i with hk | ⟨k, -, -, hkr, hkk⟩
      · exact Or.inl hk
      · refine Or.inr ⟨?_, k, hkk, hkr⟩
        rw [(create_fields cfg env i).1, hp2]
    · rw [if_neg ha]; exact Or.inl (by simp)
  · rw [if_neg hp]; exact Or.inl rfl

/-- Claim C2: when the scanned text matches priority keywords of two
different severity levels, the classifier returns a matching level at
least as severe as the more severe of the two - levels are scanned in
fixed order `P1, P2, P3, P4` and the first level with a substring match
wins, independently of where the keywords occur in the text. -/
theorem C2_higher_severity_wins (cfg : ConfigManager) (incident : Incident)
    (li lj : String)
    (hi : li ∈ (["P1", "P2", "P3", "P4"] : List String))
    (hj : lj ∈ (["P1", "P2", "P3", "P4"] : List String))
    (hmi : level_matches cfg (scanText incident) li = true)
    (hmj : level_matches cfg (scanText incident) lj = true)
    (horder : levelRank li < levelRank lj) :
    ∃ l, l ∈ (["P1", "P2", "P3", "P4"] : List String) ∧
      level_matches cfg (scanText incident) l = true ∧
      levelRank l ≤ levelRank li ∧
      (classify_incident_priority cfg incident).1 = l := by
  rw [classify_fst]
  simp only [List.mem_cons, List.not_mem_nil, or_false] at hi
  rcases hi with rfl | rfl | rfl | rfl
  · exact ⟨"P1", by simp, hmi, le_refl _,
      classifyResult_P1 cfg (scanText incident) hmi⟩
  · cases h1 : level_matches cfg (scanText incident) "P1"
    · exact ⟨"P2", by simp, hmi, le_refl _,
        classifyResult_P2 cfg (scanText incident) h1 hmi⟩
    · exact ⟨"P1", by simp, h1, by decide,
        classifyResult_P1 cfg (scanText incident) h1⟩
  · cases h1 : level_matches cfg (scanText incident) "P1"
    · cases h2 : level_matches cfg (scanText incident) "P2"
      · exact ⟨"P3", by simp, hmi, le_refl _,
          classifyResult_P3 cfg (scanText incident) h1 h2 hmi⟩
      · exact ⟨"P2", by simp, h2, by decide,
          classifyResult_P2 cfg (scanText incident) h1 h2⟩
    · exact ⟨"P1", by simp, h1, by decide,
        classifyResult_P1 cfg (scanText incident) h1⟩
  · cases h1 : level_matches cfg (scanText incident) "P1"
    · cases h2 : level_matches cfg (scanText incident) "P2"
      · cases h3 : level_matches cfg (scanText incident) "P3"
        · exact ⟨"P4", by simp, hmi, le_refl _,
            classifyResult_P4 cfg (scanText incident) h1 h2 h3 hmi⟩
        · exact ⟨"P3", by simp, h3, by decide,
            classifyResult_P3 cfg (scanText incident) h1 h2 h3⟩
      · exact ⟨"P2", by simp, h2, by decide,
          classifyResult_P2 cfg (scanText incident) h1 h2⟩
    · exact ⟨"P1", by simp, h1, by decide,
        classifyResult_P1 cfg (scanText incident) h1⟩

/-- Witness for C2 on a concrete table: with `P1:["outage"]` and
`P2:["degraded"]` both matching (the `P2` keyword occurring earlier in
the text), classification yields `P1`. -/
theorem C2_higher_severity_wins_witness :
    ∃ l, l ∈ (["P1", "P2", "P3", "P4"] : List String) ∧
      level_matches c2Cfg (scanText c2Inc) l = true ∧
      levelRank l ≤ levelRank "P1" ∧
      (classify_incident_priority c2Cfg c2Inc).1 = l :=
  C2_higher_severity_wins c2Cfg c2Inc "P1" "P2" (by decide) (by decide)
    (by decide) (by decide) (by decide)

/-- Claim C3: the classified priority always lies in the closed set
`{P1, P2, P3, P4}`; when no configured priority keyword is a substring of
the scanned text the result is the fixed default `P3` and the
no-keyword-matched note is appended. -/
theorem C3_priority_closed_set_default (cfg : ConfigManager)
    (incident : Incident) :
    (classify_incident_priority cfg incident).1 ∈
        (["P1", "P2", "P3", "P4"] : List String) ∧
    (no_priority_keyword_matches cfg incident = true →
      (classify_incident_priority cfg incident).1 = "P3" ∧
      (classify_incident_priority cfg incident).2.processing_notes =
        incident.processing_notes ++ [defaultPriorityNote]) := by
  constructor
  · rw [classify_fst]; exact classifyResult_mem cfg (scanText incident)
  · intro h
    have hs := scanLevels_none_of_no_match cfg incident h
    constructor
    · rw [classify_fst]; unfold classifyResult; rw [hs]
    · rw [classify_snd]
      simp [Incident.add_note, classifyNote, hs]

/-- Witness for C3 on a concrete no-match incident: priority defaults to
`P3` and the default note is appended. -/
theorem C3_priority_closed_set_default_witness :
    (classify_incident_priority c3Cfg c3Inc).1 = "P3" ∧
    (classify_incident_priority c3Cfg c3Inc).2.processing_notes =
      c3Inc.processing_notes ++ [defaultPriorityNote] :=
  (C3_priority_closed_set_default c3Cfg c3Inc).2 (by decide)

/-- Claim C5: normalization returns no incident exactly when one of the
four rejection filters fires (auto-reply phrase in the subject,
suppress-all header, `Auto-Submitted` other than `no`, or self-sent); in
particular a subject `"Automatic Reply: Out of Office"` is rejected, and
so is a message whose sender equals the agent's outbound address
case-insensitively. -/
theorem C5_rejection_filters (imap_msg_uid : String) (msg : EmailMessage)
    (agent_sender_email : Option String) :
    (parse_email_to_incident imap_msg_uid msg agent_sender_email = none ↔
      rejectionFilterFires msg agent_sender_email = true) ∧
    parse_email_to_incident "5" c5MsgAuto (some "agent@example.com") = none ∧
    parse_email_to_incident "6" c5MsgSelf (some "agent@example.com") = none := by
  refine ⟨?_, by decide, by decide⟩
  unfold parse_email_to_incident rejectionFilterFires
  split_ifs <;> simp [*]

/-- Claim C9: classification and assignment are deterministic functions
of the rule table, the subject/body text and the (pre-assignment)
`assigned_team` field: on two incident copies agreeing there, the
priority, team and email outputs coincide and the appended notes are
byte-identical. -/
theorem C9_deterministic (cfg : ConfigManager) (inc1 inc2 : Incident)
    (hs : inc1.subject = inc2.subject) (hb : inc1.body = inc2.body)
    (ha : inc1.assigned_team = inc2.assigned_team) :
    (classify_incident_priority cfg inc1).1 =
        (classify_incident_priority cfg inc2).1 ∧
    (assign_incident_to_team cfg inc1).1 =
        (assign_incident_to_team cfg inc2).1 ∧
    notesAppended inc1 (classify_incident_priority cfg inc1).2 =
        notesAppended inc2 (classify_incident_priority cfg inc2).2 ∧
    notesAppended inc1 (assign_incident_to_team cfg inc1).2 =
        notesAppended inc2 (assign_incident_to_team cfg inc2).2 := by
  have ht : scanText inc1 = scanText inc2 := by
    unfold scanText; rw [hs, hb]
  refine ⟨?_, ?_, ?_, ?_⟩
  · rw [classify_fst, classify_fst, ht]
  · rw [assign_fst, assign_fst, ht, ha]
  · rw [classify_snd, classify_snd, ht]
    unfold notesAppended
    simp [Incident.add_note]
  · rw [assign_spec, assign_spec, ht, ha]
    unfold notesAppended
    simp

/-- Witness for C9: two copies differing in id, raw content and earlier
notes, with identical subject/body, classify and assign identically and
append identical notes. -/
theorem C9_deterministic_witness :
    (classify_incident_priority c9Cfg c9Inc1).1 =
        (classify_incident_priority c9Cfg c9Inc2).1 ∧
    (assign_incident_to_team c9Cfg c9Inc1).1 =
        (assign_incident_to_team c9Cfg c9Inc2).1 ∧
    notesAppended c9Inc1 (classify_incident_priority c9Cfg c9Inc1).2 =
        notesAppended c9Inc2 (classify_incident_priority c9Cfg c9Inc2).2 ∧
    notesAppended c9Inc1 (assign_incident_to_team c9Cfg c9Inc1).2 =
        notesAppended c9Inc2 (assign_incident_to_team c9Cfg c9Inc2).2 :=
  C9_deterministic c9Cfg c9Inc1 c9Inc2 rfl rfl rfl

/-- Claim C1, evaluated at the failing input: with `NetworkTeam` (keyword
`network`, no email entry) listed before `DatabaseTeam` (keyword `db`,
email configured) and a text matching both, `assign_incident_to_team`
appends the warning note for the matched-but-unaddressed `NetworkTeam`
but then CONTINUES scanning and returns `DatabaseTeam` - not the default
team as the claim (and the code's own comments at
`incident_classifier.py` lines 89 and 97) state: the
`if incident.assigned_team:` guard at line 97 can never be true there,
because `assigned_team` is only set by the caller after the method
returns. -/
theorem C1_match_without_email_keeps_scanning :
    (assign_incident_to_team c1Cfg c1Inc).1 =
        ("DatabaseTeam", "db-team@example.com") ∧
    (assign_incident_to_team c1Cfg c1Inc).1 ≠
        (c1Cfg.default_team_name, c1Cfg.default_team_email) ∧
    noEmailNote "network" "NetworkTeam" ∈
        (assign_incident_to_team c1Cfg c1Inc).2.processing_notes := by
  decide

/-- Claim C7: an id recorded by a first fetch cycle is skipped by the
second - feeding two messages that normalize to the same id across two
cycles yields exactly one incident in total, because each parsed id is
recorded in the processed-id set before the next message is considered. -/
theorem C7_dedup_across_cycles (msgs1 msgs2 : List (Option Incident))
    (s0 : List String) (inc1 inc2 : Incident)
    (h1 : some inc1 ∈ msgs1) (h2 : some inc2 ∈ msgs2)
    (hid : inc2.id = inc1.id) (hnew : inc1.id ∉ s0) :
    ((fetch_new_incidents_loop msgs1 s0).1 ++
        (fetch_new_incidents_loop msgs2
          (fetch_new_incidents_loop msgs1 s0).2).1).countP
        (fun i => i.id == inc1.id) = 1 ∧
    (fetch_new_incidents_loop msgs2
        (fetch_new_incidents_loop msgs1 s0).2).1.countP
        (fun i => i.id == inc1.id) = 0 := by
  obtain ⟨hc1, hmem⟩ :=
    fetch_loop_count_one msgs1 s0 inc1.id hnew ⟨inc1, h1, rfl⟩
  have hc2 := fetch_loop_count_zero msgs2
    (fetch_new_incidents_loop msgs1 s0).2 inc1.id hmem
  refine ⟨?_, hc2⟩
  rw [List.countP_append, hc1, hc2]

/-- Witness for C7: the same message id delivered in two cycles produces
one incident in total and none in the second cycle. -/
theorem C7_dedup_across_cycles_witness :
    ((fetch_new_incidents_loop [some c7Inc1] []).1 ++
        (fetch_new_incidents_loop [some c7Inc2]
          (fetch_new_incidents_loop [some c7Inc1] []).2).1).countP
        (fun i => i.id == c7Inc1.id) = 1 ∧
    (fetch_new_incidents_loop [some c7Inc2]
        (fetch_new_incidents_loop [some c7Inc1] []).2).1.countP
        (fun i => i.id == c7Inc1.id) = 0 :=
  C7_dedup_across_cycles [some c7Inc1] [some c7Inc2] [] c7Inc1 c7Inc2
    (by decide) (by decide) (by decide) (by decide)

/-- Claim C8, counterexample: a message whose `Message-ID` header is
`"<>"` passes every rejection filter, yet the produced incident's id is
the EMPTY string - `strip("<>")` removes all its characters - refuting
"in all cases the resulting id is a non-empty string". -/
theorem C8_empty_id_counterexample :
    (parse_email_to_incident "7" c8Msg none).map Incident.id = some "" := by
  decide

/-- Claim C8 as amended: for every accepted message the id is the
`Message-ID` value stripped of angle brackets when that header decodes to
a non-empty string, else `"imap-uid-" ++ uid`; the id is empty exactly
when the `Message-ID` value is non-empty but consists only of angle
brackets. -/
theorem C8_id_formula (imap_msg_uid : String) (msg : EmailMessage)
    (agent_sender_email : Option String) (inc : Incident)
    (h : parse_email_to_incident imap_msg_uid msg agent_sender_email =
      some inc) :
    ((msg.message_id.getD "") ≠ "" →
        inc.id = pyStripAngles (msg.message_id.getD "")) ∧
    ((msg.message_id.getD "") = "" →
        inc.id = "imap-uid-" ++ imap_msg_uid) ∧
    (inc.id = "" ↔ ((msg.message_id.getD "") ≠ "" ∧
      pyStripAngles (msg.message_id.getD "") = "")) := by
  unfold parse_email_to_incident at h
  split_ifs at h
  simp only [Option.some.injEq] at h
  subst h
  by_cases hm : ((msg.message_id.getD "") != "") = true
  · have hm2 : (msg.message_id.getD "") ≠ "" := by simpa using hm
    simp only [if_pos hm]
    refine ⟨fun _ => trivial, fun hc => absurd hc hm2, ?_⟩
    constructor
    · intro hc; exact ⟨hm2, hc⟩
    · rintro ⟨-, hc⟩; exact hc
  · have hm2 : (msg.message_id.getD "") = "" := by simpa using hm
    simp only [if_neg hm]
    have hne : ("imap-uid-" ++ imap_msg_uid) ≠ "" := by
      intro hc
      have hlen := congrArg String.length hc
      rw [String.length_append] at hlen
      rw [show ("imap-uid-" : String).length = 9 from rfl] at hlen
      rw [show ("" : String).length = 0 from rfl] at hlen
      omega
    refine ⟨fun hc => absurd hm2 hc, fun _ => trivial, ?_⟩
    constructor
    · intro hc; exact absurd hc hne
    · rintro ⟨hc, -⟩; exact absurd hm2 hc

/-- Witness for the amended C8 on a regular message id. -/
theorem C8_id_formula_witness :
    parse_email_to_incident "9" c8GoodMsg none = some c8GoodInc ∧
    (((c8GoodMsg.message_id.getD "") ≠ "" →
        c8GoodInc.id = pyStripAngles (c8GoodMsg.message_id.getD "")) ∧
    ((c8GoodMsg.message_id.getD "") = "" →
        c8GoodInc.id = "imap-uid-" ++ "9") ∧
    (c8GoodInc.id = "" ↔ ((c8GoodMsg.message_id.getD "") ≠ "" ∧
      pyStripAngles (c8GoodMsg.message_id.getD "") = ""))) :=
  ⟨by decide, C8_id_formula "9" c8GoodMsg none c8GoodInc (by decide)⟩

/-- Claim C10, counterexample: when the `[TeamEmails]` section stores the
empty string under the default team's name, Python's `dict.get` returns
that empty value (not the hard-coded fallback), `assign_incident_to_team`
returns an empty email, and the "no assigned team email" skip branch of
`_process_single_incident` IS reached. -/
theorem C10_empty_default_email_counterexample :
    (assign_incident_to_team c10Cfg c10Inc).1.2 = "" ∧
    "Acknowledgement email skipped: No assigned team email was determined."
      ∈ (process_single_incident c10Cfg c10Env c10Inc).processing_notes := by
  decide

/-- Claim C10 as amended: provided the `[TeamEmails]` entry for the
default team, if present at all, is not the empty string, the email
component returned by `assign_incident_to_team` is non-empty (a matched
team's email is non-empty by the `if not team_email` guard; the default
email is the stored non-empty entry or the hard-coded fallback), and the
incident leaving the classification stage therefore carries a truthy
team email, making the acknowledgement-skipped branch unreachable. -/
theorem C10_email_nonempty (cfg : ConfigManager) (env : Env)
    (incident : Incident)
    (h : cfg.team_emails.lookup (pyLower cfg.default_team_name) ≠ some "") :
    (assign_incident_to_team cfg incident).1.2 ≠ "" ∧
    pyTruthy (process_stage_classified cfg incident).assigned_team_email =
      true := by
  constructor
  · rw [assign_fst]
    exact assignResult_email_ne cfg (scanText incident)
      incident.assigned_team h
  · rw [stage_spec]
    have hne := assignResult_email_ne cfg (scanText incident)
      incident.assigned_team h
    simp [pyTruthy, bne_iff_ne, hne]

/-- Witness for the amended C10: a matched team without an email entry
still ends with the (non-empty) default team email. -/
theorem C10_email_nonempty_witness :
    (assign_incident_to_team c10GoodCfg c10GoodInc).1.2 ≠ "" ∧
    pyTruthy (process_stage_classified c10GoodCfg
        c10GoodInc).assigned_team_email = true :=
  C10_email_nonempty c10GoodCfg c10Env c10GoodInc (by decide)

/-- Claim C4: starting from an incident with no ticket key, the lifecycle
sets `jira_ticket_key` only when the final priority is `P1`; for any
non-P1 final priority the key is still unset at the terminal state; and
`create_jira_ticket_for_incident` on a non-P1 incident returns no key and
leaves the key untouched. -/
theorem C4_ticket_only_for_P1 (cfg : ConfigManager) (env : Env)
    (incident : Incident) (h0 : incident.jira_ticket_key = none) :
    ((process_single_incident cfg env incident).jira_ticket_key ≠ none →
        (process_single_incident cfg env incident).priority = some "P1") ∧
    ((process_single_incident cfg env incident).priority ≠ some "P1" →
        (process_single_incident cfg env incident).jira_ticket_key = none) ∧
    (∀ inc2 : Incident, inc2.priority ≠ some "P1" →
        (create_jira_ticket_for_incident cfg env inc2).1 = none ∧
        (create_jira_ticket_for_incident cfg env inc2).2.jira_ticket_key =
          inc2.jira_ticket_key) := by
  have hstagek : (process_stage_classified cfg incident).jira_ticket_key =
      none := by
    rw [stage_spec]; exact h0
  have hackk : (ack_step cfg env
      (process_stage_classified cfg incident)).jira_ticket_key = none := by
    rw [(ack_step_fields cfg env _).2.1]; exact hstagek
  have hkey : (process_single_incident cfg env incident).jira_ticket_key =
        none ∨
      (process_single_incident cfg env incident).priority = some "P1" := by
    unfold process_single_incident
    rcases ticket_step_key_cases cfg env
        (ack_step cfg env (process_stage_classified cfg incident)) with
      hk | ⟨hp, -⟩
    · left; rw [hk]; exact hackk
    · right; exact hp
  refine ⟨?_, ?_, fun inc2 h2 => create_nonp1 cfg env inc2 h2⟩
  · intro hne
    rcases hkey with hk | hp
    · exact absurd hk hne
    · exact hp
  · intro hnp
    rcases hkey with hk | hp
    · exact hk
    · exact absurd hp hnp

/-- Witness for C4: a non-P1 incident ends the lifecycle with no ticket
key even though the Jira collaborator is available and would succeed. -/
theorem C4_ticket_only_for_P1_witness :
    c4Inc.jira_ticket_key = none ∧
    (((process_single_incident c4Cfg c4Env c4Inc).jira_ticket_key ≠ none →
        (process_single_incident c4Cfg c4Env c4Inc).priority = some "P1") ∧
    ((process_single_incident c4Cfg c4Env c4Inc).priority ≠ some "P1" →
        (process_single_incident c4Cfg c4Env c4Inc).jira_ticket_key = none) ∧
    (∀ inc2 : Incident, inc2.priority ≠ some "P1" →
        (create_jira_ticket_for_incident c4Cfg c4Env inc2).1 = none ∧
        (create_jira_ticket_for_incident c4Cfg c4Env inc2).2.jira_ticket_key =
          inc2.jira_ticket_key)) :=
  ⟨by decide, C4_ticket_only_for_P1 c4Cfg c4Env c4Inc (by decide)⟩

/-- Claim C6: when SMTP is configured, the team email is available (the
default team's `[TeamEmails]` entry, if present, being non-empty) and the
send attempt fails with any transport error, the lifecycle keeps
`is_acknowledged = false`, appends a note containing "Failed to send
acknowledgement", still completes (priority and team are set at the
terminal state), and a P1 incident still gets the collaborator's ticket
key when the client is available and creation succeeds. -/
theorem C6_notification_failure_not_fatal (cfg : ConfigManager) (env : Env)
    (incident : Incident)
    (hc : env.smtp_configured = true)
    (hfail : env.smtp_result ≠ SmtpOutcome.ok)
    (hde : cfg.team_emails.lookup (pyLower cfg.default_team_name) ≠ some "")
    (hack : incident.is_acknowledged = false) :
    (process_single_incident cfg env incident).is_acknowledged = false ∧
    (∃ n ∈ (process_single_incident cfg env incident).processing_notes,
        pyIn "Failed to send acknowledgement" n = true) ∧
    (process_single_incident cfg env incident).priority.isSome = true ∧
    (process_single_incident cfg env incident).assigned_team.isSome = true ∧
    ((process_single_incident cfg env incident).priority = some "P1" →
      env.jira_available = true →
      ∀ k, env.jira_create_result = some k →
        (process_single_incident cfg env incident).jira_ticket_key =
          some k) := by
  obtain ⟨n0, hn0, hinfix⟩ : ∃ n0, smtpFailNote env.smtp_result = some n0 ∧
      pyIn "Failed to send acknowledgement" n0 = true := by
    rcases hres : env.smtp_result with _ | e | e
    · exact absurd hres hfail
    · exact ⟨_, rfl, pyIn_of_prefix _ _ e (by decide)⟩
    · exact ⟨_, rfl, pyIn_of_prefix _ _ e (by decide)⟩
  have hemail : pyTruthy (process_stage_classified cfg
      incident).assigned_team_email = true := by
    rw [stage_spec]
    have hne := assignResult_email_ne cfg (scanText incident)
      incident.assigned_team hde
    simp [pyTruthy, bne_iff_ne, hne]
  have hackeq : ack_step cfg env (process_stage_classified cfg incident) =
      (process_stage_classified cfg incident).add_note n0 :=
    ack_step_fail cfg env _ n0 hc hemail hn0
  unfold process_single_incident
  rw [hackeq]
  refine ⟨?_, ?_, ?_, ?_, ?_⟩
  · rw [ticket_step_ack, add_note_is_acknowledged, stage_spec]
    exact hack
  · refine ⟨n0, ticket_step_notes_mono cfg env _ n0 ?_, hinfix⟩
    rw [add_note_processing_notes]
    simp
  · rw [ticket_step_priority, add_note_priority, stage_spec]
    simp
  · rw [ticket_step_team, add_note_assigned_team, stage_spec]
    simp
  · intro hp ha k hk
    have hp2 : ((process_stage_classified cfg incident).add_note n0).priority
        = some "P1" := by
      rw [← ticket_step_priority cfg env]
      exact hp
    have hbeq : ((((process_stage_classified cfg incident).add_note
        n0).priority == some "P1") = true) := by
      rw [beq_iff_eq]; exact hp2
    unfold ticket_step
    rw [if_pos hbeq, if_pos ha]
    exact create_p1_success cfg env _ k hp2 ha hk

/-- Witness for C6: a concrete P1 incident whose acknowledgement send
fails still ends unacknowledged, with the failure note, fully classified,
and with the ticket key stored. -/
theorem C6_notification_failure_not_fatal_witness :
    (process_single_incident c6Cfg c6Env c6Inc).is_acknowledged = false ∧
    (∃ n ∈ (process_single_incident c6Cfg c6Env c6Inc).processing_notes,
        pyIn "Failed to send acknowledgement" n = true) ∧
    (process_single_incident c6Cfg c6Env c6Inc).priority.isSome = true ∧
    (process_single_incident c6Cfg c6Env c6Inc).assigned_team.isSome = true ∧
    ((process_single_incident c6Cfg c6Env c6Inc).priority = some "P1" →
      c6Env.jira_available = true →
      ∀ k, c6Env.jira_create_result = some k →
        (process_single_incident c6Cfg c6Env c6Inc).jira_ticket_key =
          some k) :=
  C6_notification_failure_not_fatal c6Cfg c6Env c6Inc (by decide) (by decide)
    (by decide) (by decide)
